import Mathlib

/-
  Verification of the device audit/backup script (device_check.py).

  The script connects to each device of an inventory, backs up its running
  configuration, extracts audit data from show-command output, pushes a shared
  NTP/timezone baseline and reports a one-line audit record.  The definitions
  below shallowly embed the script: network and filesystem outcomes are
  explicit `Except` inputs, and each session records the sequence of
  externally visible events (commands sent, config pushed, files written,
  connect/disconnect) so that ordering and error-path claims can be stated.
-/

namespace DeviceCheck

/-- Python exception kinds that the script can raise or propagate. -/
inductive PyErr where
  /-- NameError: in `create_backup` the handler clause `except Error:` refers
      to the undefined name `Error`, so handling any exception raises NameError. -/
  | nameError
  /-- IndexError: `ParseText(...)[0]` on an empty parse result. -/
  | indexError
  /-- Netmiko connection failure (unreachable host, auth failure, ...). -/
  | connectError
  /-- A show command failed at the transport level. -/
  | cmdError
  /-- Writing the backup file failed (OSError and friends). -/
  | writeError
  /-- os.mkdir failed. -/
  | mkdirError
  /-- send_config_set failed. -/
  | configError
  /-- connection.disconnect() failed. -/
  | disconnectError
  /-- Generic socket error in the NTP probe (timeout, unreachable, ...). -/
  | socketError
  deriving DecidableEq, Repr

/-- Boolean form of the Python substring test `needle in hay`. -/
def strIn (needle hay : String) : Bool :=
  decide (needle.data <:+: hay.data)

/-- Boolean success test for an `Except` outcome. -/
def isOkB {α : Type} : Except PyErr α → Bool
  | .ok _ => true
  | .error _ => false

/-! ### NTP prober (`check_ntp_server`) -/

/-- The UDP port the probe targets (`port = 123` in `check_ntp_server`). -/
def ntp_port : Nat := 123

/-- The request datagram of `check_ntp_server`: the byte 0x1b followed by 47
    zero bytes (`'\x1b' + 47 * '\0'`). -/
def ntp_request_msg : List Nat := 0x1b :: List.replicate 47 0

/-- Embedding of `check_ntp_server`.  The network is an oracle: `sendResult`
    is the outcome of `sendto`, `recvResult` the outcome of the single
    `recvfrom` (a timeout or socket error is an `.error`, an arriving datagram
    its byte list).  Any exception inside the `try` yields `false`; if the
    `recvfrom` returns, the probe yields `true` with no inspection of the
    reply bytes and no retry. -/
def check_ntp_server (sendResult : Except PyErr Unit)
    (recvResult : Except PyErr (List Nat)) : Bool :=
  match sendResult with
  | .error _ => false
  | .ok _ =>
    match recvResult with
    | .error _ => false
    | .ok _ => true

/-- Modelled from the spec: a well-formed reply to the client-mode probe is a
    full 48-byte NTP packet (the spec speaks of "malformed/missing reply";
    the code itself never validates the reply, which is what claim C7 is
    about). -/
def specWellFormedReply (reply : List Nat) : Bool :=
  reply.length == 48

/-! ### Small pure session helpers -/

/-- Hostname derivation in `process_target`:
    `device_hostname = connection.find_prompt()[:-1]`. -/
def device_hostname (prompt : String) : String :=
  String.mk prompt.data.dropLast

/-- Hardware/edition flag: `pe_or_npe = 'NPE' if 'NPE' in sh_vers else 'PE'`. -/
def pe_or_npe (sh_vers : String) : String :=
  if strIn "NPE" sh_vers then "NPE" else "PE"

/-- CDP flag: `'CDP is OFF' if "CDP is not enabled" in sh_cdn_nei else 'CDP is ON'`. -/
def cdp_flag (sh_cdn_nei : String) : String :=
  if strIn "CDP is not enabled" sh_cdn_nei then "CDP is OFF" else "CDP is ON"

/-- NTP status flag as the code computes it:
    `'Clock not in Sync' if 'sh_ntp_sta' in sh_ntp_sta else 'Clock in Sync'`.
    Note the needle is the literal string of the variable name. -/
def ntp_status (sh_ntp_sta : String) : String :=
  if strIn "sh_ntp_sta" sh_ntp_sta then "Clock not in Sync" else "Clock in Sync"

/-- Modelled from the spec: the not-in-sync marker that "show ntp status"
    output carries when the clock is not synchronized (Cisco IOS prints
    "Clock is unsynchronized ..."). -/
def spec_not_in_sync_marker : String := "unsynchronized"

/-! ### Backup paths (`get_backup_file_path`) and timestamps -/

/-- Default backup root (`BACKUP_DIR_PATH = 'backups'`). -/
def BACKUP_DIR_PATH : String := "backups"

/-- The backup artifact path string built by `get_backup_file_path`:
    `os.path.join(BACKUP_DIR_PATH, hostname, hostname + '-' + timestamp + '.txt')`. -/
def backup_file_path (hostname timestamp : String) : String :=
  BACKUP_DIR_PATH ++ "/" ++ hostname ++ "/" ++ hostname ++ "-" ++ timestamp ++ ".txt"

/-- A calendar instant as `datetime.datetime.now()` provides it. -/
structure DateTime6 where
  year : Nat
  month : Nat
  day : Nat
  hour : Nat
  minute : Nat
  second : Nat
  deriving DecidableEq, Repr

/-- Two-digit zero padding as strftime applies to %m %d %H %M %S. -/
def pad2 (n : Nat) : String :=
  if n < 10 then "0" ++ toString n else toString n

/-- Embedding of `get_current_date_and_time`: `now.strftime("%Y_%m_%d-%H_%M_%S")`. -/
def get_current_date_and_time (now : DateTime6) : String :=
  toString now.year ++ "_" ++ pad2 now.month ++ "_" ++ pad2 now.day ++ "-" ++
    pad2 now.hour ++ "_" ++ pad2 now.minute ++ "_" ++ pad2 now.second

/-! ### Baseline construction in `main` -/

/-- The fixed candidate list `NTP_SERVERS`. -/
def NTP_SERVERS : List String :=
  ["37.193.156.169", "78.36.18.184", "89.221.207.113", "192.36.143.130"]

/-- Embedding of the baseline loop of `main`: start from the timezone
    directive and append one `ntp server` line per candidate whose probe
    returned true, in candidate-list order. -/
def build_config_commands (probe : String → Bool) : List String :=
  NTP_SERVERS.foldl
    (fun acc ntp_server =>
      if probe ntp_server then acc ++ ["ntp server " ++ ntp_server] else acc)
    ["clock timezone GMT 0 0"]

/-! ### Session events and environment -/

/-- Externally visible events of one device session, in order of occurrence:
    commands sent over the session, configuration pushes, file writes,
    directory creation, connect and disconnect attempts. -/
inductive Ev where
  | connect
  | mkdir (dir : String)
  | cmd (command : String)
  | fileWrite (path : String)
  | configSet (cmds : List String)
  | disconnect
  deriving DecidableEq, Repr

/-- The outcomes the outside world hands one call of `process_target`:
    results of the netmiko calls, of the filesystem operations, and the two
    TextFSM template applications (the templates live outside the source, so
    parsing is an oracle applied to the raw text, as the code applies it). -/
structure Env where
  connectResult : Except PyErr Unit
  prompt : String
  dirExists : Bool
  mkdirResult : Except PyErr Unit
  enableResult : Except PyErr Unit
  sh_run : Except PyErr String
  writeResult : Except PyErr Unit
  sh_cdp : Except PyErr String
  sh_vers : Except PyErr String
  configResult : Except PyErr Unit
  sh_ntp : Except PyErr String
  disconnectResult : Except PyErr Unit
  parseCdp : String → List (List String)
  parseVers : String → List (List String)

/-- The audit data `process_target` assembles and prints for one device. -/
structure Audit where
  hostname : String
  version : List String
  pe_or_npe : String
  cdp_enabled : String
  num_cdp_neighbors : Nat
  ntp_status : String
  backup_result : Bool
  deriving DecidableEq, Repr

/-- Embedding of `get_backup_file_path`: create the per-hostname directory
    when it does not exist (an existing directory is left alone), then return
    the artifact path.  `os.mkdir` is only reached in the absent case, and its
    failure propagates (there is no handler). -/
def get_backup_file_path (dirExists : Bool) (mkdirResult : Except PyErr Unit)
    (hostname timestamp : String) : Except PyErr String × List Ev :=
  if dirExists then
    (.ok (backup_file_path hostname timestamp), [])
  else
    match mkdirResult with
    | .error e => (.error e, [.mkdir (BACKUP_DIR_PATH ++ "/" ++ hostname)])
    | .ok _ =>
      (.ok (backup_file_path hostname timestamp),
       [.mkdir (BACKUP_DIR_PATH ++ "/" ++ hostname)])

/-- Embedding of `create_backup`.  The body runs `enable`, `send_command('sh
    run')` and the file write inside a `try` whose only handler is
    `except Error:` — but `Error` is an undefined name, so as soon as any
    exception is being handled the lookup of `Error` raises `NameError`,
    which escapes `create_backup`.  Consequently the function either returns
    `True` or raises; the `return False` branch is unreachable. -/
def create_backup (enableResult : Except PyErr Unit) (sh_run : Except PyErr String)
    (writeResult : Except PyErr Unit) (backup_file_path : String) :
    Except PyErr Bool × List Ev :=
  match enableResult with
  | .error _ => (.error .nameError, [])
  | .ok _ =>
    match sh_run with
    | .error _ => (.error .nameError, [.cmd "sh run"])
    | .ok _ =>
      match writeResult with
      | .error _ => (.error .nameError, [.cmd "sh run", .fileWrite backup_file_path])
      | .ok _ => (.ok true, [.cmd "sh run", .fileWrite backup_file_path])

/-- Embedding of `process_target`, returning the device audit record (or the
    exception that escaped — there is no try/except in `process_target`, so
    the first exception aborts the session) together with the event trace. -/
def process_target (env : Env) (timestamp : String) (config_commands : List String) :
    Except PyErr Audit × List Ev :=
  match env.connectResult with
  | .error e => (.error e, [.connect])
  | .ok _ =>
    let hostname := device_hostname env.prompt
    match get_backup_file_path env.dirExists env.mkdirResult hostname timestamp with
    | (.error e, evs) => (.error e, Ev.connect :: evs)
    | (.ok path, evs₁) =>
      match create_backup env.enableResult env.sh_run env.writeResult path with
      | (.error e, evs) => (.error e, Ev.connect :: evs₁ ++ evs)
      | (.ok backup_result, evs₂) =>
        let evs := Ev.connect :: evs₁ ++ evs₂ ++ [Ev.cmd "show cdp neighbors"]
        match env.sh_cdp with
        | .error e => (.error e, evs)
        | .ok sh_cdn_nei =>
          let cdp_enabled := cdp_flag sh_cdn_nei
          let num_cdp_neighbors := (env.parseCdp sh_cdn_nei).length
          let evs := evs ++ [Ev.cmd "show version"]
          match env.sh_vers with
          | .error e => (.error e, evs)
          | .ok sh_vers =>
            let hw := pe_or_npe sh_vers
            match env.parseVers sh_vers with
            | [] => (.error .indexError, evs)
            | version :: _ =>
              let evs := evs ++ [Ev.configSet config_commands]
              match env.configResult with
              | .error e => (.error e, evs)
              | .ok _ =>
                let evs := evs ++ [Ev.cmd "show ntp status"]
                match env.sh_ntp with
                | .error e => (.error e, evs)
                | .ok sh_ntp_sta =>
                  let status := ntp_status sh_ntp_sta
                  let evs := evs ++ [Ev.disconnect]
                  match env.disconnectResult with
                  | .error e => (.error e, evs)
                  | .ok _ =>
                    (.ok { hostname := hostname, version := version,
                           pe_or_npe := hw, cdp_enabled := cdp_enabled,
                           num_cdp_neighbors := num_cdp_neighbors,
                           ntp_status := status, backup_result := backup_result },
                     evs)

/-! ### Orchestration in `main` -/

/-- The task parameter triples `main` submits to the pool, one per inventory
    row and in inventory order: `pool.apply_async(process_target,
    args=(device, timestamp, config_commands))` after computing the baseline
    and the timestamp exactly once. -/
def main_tasks (devices : List Env) (probe : String → Bool) (now : DateTime6) :
    List (Env × String × List String) :=
  let config_commands := build_config_commands probe
  let timestamp := get_current_date_and_time now
  devices.map (fun device => (device, timestamp, config_commands))

/-- The per-task outcomes the pool produces for `main`: each submitted task
    runs `process_target` on its own device. -/
def apply_async_results (devices : List Env) (probe : String → Bool)
    (now : DateTime6) : List (Except PyErr Audit) :=
  (main_tasks devices probe now).map
    (fun task => (process_target task.1 task.2.1 task.2.2).1)

/-- Embedding of the collection loop of `main`: `for process in processes:
    process.get()`.  `get()` re-raises the exception of a failed task, which
    aborts the loop (and, leaving the `with` block, terminates the pool); the
    return values of successful tasks are discarded. -/
def main_collect (results : List (Except PyErr Audit)) : Except PyErr Unit :=
  match results with
  | [] => .ok ()
  | .error e :: _ => .error e
  | .ok _ :: rest => main_collect rest

/-! ### Concrete environments used as test inputs -/

/-- A fully successful session environment. -/
def envOK : Env where
  connectResult := .ok ()
  prompt := "r1#"
  dirExists := true
  mkdirResult := .ok ()
  enableResult := .ok ()
  sh_run := .ok "hostname r1"
  writeResult := .ok ()
  sh_cdp := .ok "Device ID Local Intrfce Holdtme"
  sh_vers := .ok "Cisco IOS Software, Version 15.1"
  configResult := .ok ()
  sh_ntp := .ok "Clock is synchronized, stratum 2"
  disconnectResult := .ok ()
  parseCdp := fun _ => []
  parseVers := fun _ => [["15.1", "r1", "img", "a", "b", "c", "d"]]

/-- Like `envOK` but the connection attempt raises. -/
def envBadConn : Env := { envOK with connectResult := .error .connectError }

/-- Like `envOK` but `send_config_set` raises. -/
def envBadConfig : Env := { envOK with configResult := .error .configError }

/-- Like `envOK` but the show-version template parses to zero rows. -/
def envNoVersRows : Env := { envOK with parseVers := fun _ => [] }

/-- Like `envOK` but the NTP status output reports an unsynchronized clock. -/
def envUnsync : Env :=
  { envOK with sh_ntp := .ok "Clock is unsynchronized, stratum 16, no reference clock" }

/-! ### Filesystem model for backup writes -/

/-- A flat file store: newest write first, `fs_read` sees the newest entry. -/
def fs_write (fs : List (String × String)) (path text : String) :
    List (String × String) :=
  (path, text) :: fs

/-- Read back a path from the store (most recent write wins). -/
def fs_read (fs : List (String × String)) (path : String) : Option String :=
  (fs.find? (fun entry => entry.1 == path)).map (fun entry => entry.2)

/-- All the session steps that precede the `disconnect_from_device` call in
    `process_target` succeed: connect, directory creation (when needed),
    enable, the running-config pull and write, the three remaining show
    commands, a nonempty show-version parse, and the config push. -/
def pre_disconnect_ok (env : Env) : Bool :=
  isOkB env.connectResult
    && (env.dirExists || isOkB env.mkdirResult)
    && isOkB env.enableResult && isOkB env.sh_run && isOkB env.writeResult
    && isOkB env.sh_cdp
    && (match env.sh_vers with
        | .error _ => false
        | .ok v => !(env.parseVers v).isEmpty)
    && isOkB env.configResult && isOkB env.sh_ntp

/-! ### Helper lemmas -/

theorem strIn_iff (needle hay : String) :
    strIn needle hay = true ↔ needle.data <:+: hay.data := by
  simp [strIn]

theorem build_config_commands_foldl (probe : String → Bool) (l acc : List String) :
    l.foldl
        (fun acc ntp_server =>
          if probe ntp_server then acc ++ ["ntp server " ++ ntp_server] else acc)
        acc
      = acc ++ (l.filter probe).map (fun s => "ntp server " ++ s) := by
  induction l generalizing acc with
  | nil => simp
  | cons a l ih =>
    by_cases h : probe a <;> simp [h, ih]

theorem build_config_commands_eq (probe : String → Bool) :
    build_config_commands probe
      = "clock timezone GMT 0 0" ::
          (NTP_SERVERS.filter probe).map (fun s => "ntp server " ++ s) := by
  simp [build_config_commands, build_config_commands_foldl]

theorem process_target_all_ok (env : Env) (ts : String) (cfg : List String)
    (r c v n : String) (row : List String) (rows : List (List String))
    (hconn : env.connectResult = .ok ())
    (hmk : env.dirExists = true ∨ env.mkdirResult = .ok ())
    (hen : env.enableResult = .ok ())
    (hrun : env.sh_run = .ok r)
    (hwr : env.writeResult = .ok ())
    (hcdp : env.sh_cdp = .ok c)
    (hvers : env.sh_vers = .ok v)
    (hpv : env.parseVers v = row :: rows)
    (hcfg : env.configResult = .ok ())
    (hntp : env.sh_ntp = .ok n)
    (hdis : env.disconnectResult = .ok ()) :
    process_target env ts cfg =
      (.ok { hostname := device_hostname env.prompt, version := row,
             pe_or_npe := pe_or_npe v, cdp_enabled := cdp_flag c,
             num_cdp_neighbors := (env.parseCdp c).length,
             ntp_status := ntp_status n, backup_result := true },
       [Ev.connect]
         ++ (if env.dirExists then []
             else [Ev.mkdir (BACKUP_DIR_PATH ++ "/" ++ device_hostname env.prompt)])
         ++ [Ev.cmd "sh run",
             Ev.fileWrite (backup_file_path (device_hostname env.prompt) ts),
             Ev.cmd "show cdp neighbors", Ev.cmd "show version",
             Ev.configSet cfg, Ev.cmd "show ntp status", Ev.disconnect]) := by
  rcases hmk with hdir | hmk
  · simp [process_target, get_backup_file_path, create_backup, hconn, hdir, hen,
      hrun, hwr, hcdp, hvers, hpv, hcfg, hntp, hdis]
  · by_cases hdir : env.dirExists <;>
      simp [process_target, get_backup_file_path, create_backup, hconn, hdir, hen,
        hmk, hrun, hwr, hcdp, hvers, hpv, hcfg, hntp, hdis]

theorem disconnect_mem_iff (env : Env) (ts : String) (cfg : List String) :
    Ev.disconnect ∈ (process_target env ts cfg).2 ↔ pre_disconnect_ok env = true := by
  obtain ⟨conn, prompt, dE, mk, en, run, wr, cdp, vers, cfgR, ntp, dis, pc, pv⟩ := env
  simp only [process_target, get_backup_file_path, create_backup]
  repeat' split
  all_goals try simp_all [pre_disconnect_ok, isOkB]
  all_goals
    (try cases dE) <;> (try cases mk) <;> (try cases en) <;> (try cases run) <;>
      (try cases wr) <;> (try simp_all [pre_disconnect_ok, isOkB])
  all_goals casesm* _ ∧ _
  all_goals subst_vars
  all_goals simp

theorem apply_async_results_cons (d : Env) (ds : List Env) (probe : String → Bool)
    (now : DateTime6) :
    apply_async_results (d :: ds) probe now
      = (process_target d (get_current_date_and_time now)
            (build_config_commands probe)).1
          :: apply_async_results ds probe now := by
  simp [apply_async_results, main_tasks]

/-! ### Claim C1 -/

/-- C1: the claim says the NTP-sync flag of the audit record reports in-sync
    exactly when the raw "show ntp status" output contains no not-in-sync
    marker.  The code instead tests the output for the literal string
    "sh_ntp_sta" (the name of the Python variable holding the output), so an
    output carrying the marker "unsynchronized" is still reported as
    "Clock in Sync", both by the flag computation and in the audit record of
    a full session; the last conjunct shows what the code actually tests. -/
theorem claim_C1_ntp_flag_is_wrong :
    strIn spec_not_in_sync_marker
        "Clock is unsynchronized, stratum 16, no reference clock" = true
  ∧ ntp_status "Clock is unsynchronized, stratum 16, no reference clock"
      = "Clock in Sync"
  ∧ Except.map (fun a => a.ntp_status) (process_target envUnsync "TS" []).1
      = .ok "Clock in Sync"
  ∧ (∀ s : String,
      ntp_status s = "Clock not in Sync" ↔ strIn "sh_ntp_sta" s = true) := by
  refine ⟨by decide, rfl, rfl, ?_⟩
  intro s
  by_cases h : strIn "sh_ntp_sta" s <;> simp [ntp_status, h]

/-! ### Claim C2 -/

/-- C2 counterexample: in a five-device inventory where the second device
    raises a connection error, the exception is not converted into a
    failure-kind result: `process_target` propagates it, `process.get()`
    re-raises it in `main`, and the collection loop aborts with the exception
    instead of producing five per-device results. -/
theorem claim_C2_cex :
    (process_target envBadConn (get_current_date_and_time ⟨2024, 1, 1, 0, 0, 0⟩)
        (build_config_commands (fun _ => false))).1 = .error .connectError
  ∧ main_collect (apply_async_results [envOK, envBadConn, envOK, envOK, envOK]
      (fun _ => false) ⟨2024, 1, 1, 0, 0, 0⟩) = .error .connectError :=
  ⟨rfl, rfl⟩

/-- C2 (amended): per-device errors are not caught at the task boundary.
    The collection loop of `main` completes only when every device task
    succeeds, and when the inventory splits as good ++ bad :: rest with every
    device of good succeeding and bad failing with exception e, the run
    aborts by re-raising e — the remaining devices contribute no collected
    outcome. -/
theorem claim_C2_no_fault_isolation (probe : String → Bool) (now : DateTime6) :
    (∀ devices : List Env,
        (∀ env ∈ devices,
          isOkB (process_target env (get_current_date_and_time now)
              (build_config_commands probe)).1 = true) →
        main_collect (apply_async_results devices probe now) = .ok ())
  ∧ (∀ (good rest : List Env) (bad : Env) (e : PyErr),
        (∀ env ∈ good,
          isOkB (process_target env (get_current_date_and_time now)
              (build_config_commands probe)).1 = true) →
        (process_target bad (get_current_date_and_time now)
            (build_config_commands probe)).1 = .error e →
        main_collect (apply_async_results (good ++ bad :: rest) probe now)
          = .error e) := by
  constructor
  · intro devices h
    induction devices with
    | nil => rfl
    | cons d ds ih =>
      rw [apply_async_results_cons]
      have hd := h d (List.mem_cons_self d ds)
      cases hr : (process_target d (get_current_date_and_time now)
          (build_config_commands probe)).1 with
      | error e => rw [hr] at hd; simp [isOkB] at hd
      | ok a =>
        simp only [main_collect]
        exact ih (fun env henv => h env (List.mem_cons_of_mem d henv))
  · intro good rest bad e hgood hbad
    induction good with
    | nil =>
      rw [List.nil_append, apply_async_results_cons, hbad]
      rfl
    | cons d ds ih =>
      rw [List.cons_append, apply_async_results_cons]
      have hd := hgood d (List.mem_cons_self d ds)
      cases hr : (process_target d (get_current_date_and_time now)
          (build_config_commands probe)).1 with
      | error e => rw [hr] at hd; simp [isOkB] at hd
      | ok a =>
        simp only [main_collect]
        exact ih (fun env henv => hgood env (List.mem_cons_of_mem d henv))

/-- C2 witness: the amended theorem applied to the concrete inventory
    [envOK] ++ envBadConn :: [envOK]. -/
theorem claim_C2_witness :
    (∀ env ∈ [envOK],
        isOkB (process_target env (get_current_date_and_time ⟨2024, 1, 1, 0, 0, 0⟩)
            (build_config_commands (fun _ => false))).1 = true)
  ∧ (process_target envBadConn (get_current_date_and_time ⟨2024, 1, 1, 0, 0, 0⟩)
        (build_config_commands (fun _ => false))).1 = .error .connectError
  ∧ main_collect (apply_async_results ([envOK] ++ envBadConn :: [envOK])
      (fun _ => false) ⟨2024, 1, 1, 0, 0, 0⟩) = .error .connectError := by
  refine ⟨?_, rfl, ?_⟩
  · intro env henv
    rw [List.mem_singleton] at henv
    subst henv
    rfl
  · exact (claim_C2_no_fault_isolation (fun _ => false) ⟨2024, 1, 1, 0, 0, 0⟩).2
      [envOK] [envOK] envBadConn .connectError
      (by intro env henv; rw [List.mem_singleton] at henv; subst henv; rfl) rfl

/-! ### Claim C3 -/

/-- C3 counterexample: a session whose connection opened but whose config
    push raises leaves `process_target` via the exception without the
    disconnect step ever being attempted — the session leaks. -/
theorem claim_C3_cex :
    envBadConfig.connectResult = .ok ()
  ∧ (process_target envBadConfig "TS" []).1 = .error .configError
  ∧ Ev.disconnect ∉ (process_target envBadConfig "TS" []).2 :=
  ⟨rfl, rfl, by decide⟩

/-- C3 (amended): the disconnect step is attempted exactly on sessions in
    which every step before it (connect, directory creation when needed,
    enable, running-config pull and write, the remaining show commands, a
    nonempty show-version parse, and the config push) succeeded; any failure
    after connect aborts `process_target` without attempting disconnect,
    because the function has no try/finally around the session body. -/
theorem claim_C3_disconnect_only_after_full_success (env : Env) (ts : String)
    (cfg : List String) :
    Ev.disconnect ∈ (process_target env ts cfg).2 ↔ pre_disconnect_ok env = true :=
  disconnect_mem_iff env ts cfg

/-! ### Claim C4 -/

/-- C4 counterexample: on a fully successful session, the config push occurs
    strictly before the "show ntp status" command, so it is false that all
    four show commands are issued before the baseline is pushed. -/
theorem claim_C4_cex :
    Ev.configSet ["clock timezone GMT 0 0"]
        ∈ (process_target envOK "TS" ["clock timezone GMT 0 0"]).2
  ∧ Ev.cmd "show ntp status"
        ∈ (process_target envOK "TS" ["clock timezone GMT 0 0"]).2
  ∧ (process_target envOK "TS" ["clock timezone GMT 0 0"]).2.indexOf
        (Ev.configSet ["clock timezone GMT 0 0"])
      < (process_target envOK "TS" ["clock timezone GMT 0 0"]).2.indexOf
        (Ev.cmd "show ntp status") := by
  refine ⟨by decide, by decide, by decide⟩

/-- C4 (amended): on a successful session the externally visible events come
    in the fixed order connect, (mkdir when needed), running-config pull
    (issued as the abbreviation "sh run"), backup write, "show cdp
    neighbors", "show version", the ConfigBaseline push, "show ntp status",
    disconnect: the first three show commands precede the push and
    "show ntp status" follows it. -/
theorem claim_C4_command_order (env : Env) (ts : String) (cfg : List String)
    (r c v n : String) (row : List String) (rows : List (List String))
    (hconn : env.connectResult = .ok ())
    (hmk : env.dirExists = true ∨ env.mkdirResult = .ok ())
    (hen : env.enableResult = .ok ())
    (hrun : env.sh_run = .ok r)
    (hwr : env.writeResult = .ok ())
    (hcdp : env.sh_cdp = .ok c)
    (hvers : env.sh_vers = .ok v)
    (hpv : env.parseVers v = row :: rows)
    (hcfg : env.configResult = .ok ())
    (hntp : env.sh_ntp = .ok n)
    (hdis : env.disconnectResult = .ok ()) :
    (process_target env ts cfg).2
      = [Ev.connect]
          ++ (if env.dirExists then []
              else [Ev.mkdir (BACKUP_DIR_PATH ++ "/" ++ device_hostname env.prompt)])
          ++ [Ev.cmd "sh run",
              Ev.fileWrite (backup_file_path (device_hostname env.prompt) ts),
              Ev.cmd "show cdp neighbors", Ev.cmd "show version",
              Ev.configSet cfg, Ev.cmd "show ntp status", Ev.disconnect] := by
  rw [process_target_all_ok env ts cfg r c v n row rows hconn hmk hen hrun hwr
    hcdp hvers hpv hcfg hntp hdis]

/-- C4 witness: the amended order theorem applied to the concrete successful
    environment `envOK`. -/
theorem claim_C4_witness :
    envOK.connectResult = .ok ()
  ∧ envOK.sh_vers = .ok "Cisco IOS Software, Version 15.1"
  ∧ envOK.parseVers "Cisco IOS Software, Version 15.1"
      = [["15.1", "r1", "img", "a", "b", "c", "d"]]
  ∧ (process_target envOK "TS" ["clock timezone GMT 0 0"]).2
      = [Ev.connect]
          ++ (if envOK.dirExists then []
              else [Ev.mkdir (BACKUP_DIR_PATH ++ "/" ++ device_hostname envOK.prompt)])
          ++ [Ev.cmd "sh run",
              Ev.fileWrite (backup_file_path (device_hostname envOK.prompt) "TS"),
              Ev.cmd "show cdp neighbors", Ev.cmd "show version",
              Ev.configSet ["clock timezone GMT 0 0"], Ev.cmd "show ntp status",
              Ev.disconnect] :=
  ⟨rfl, rfl, rfl,
    claim_C4_command_order envOK "TS" ["clock timezone GMT 0 0"]
      "hostname r1" "Device ID Local Intrfce Holdtme" "Cisco IOS Software, Version 15.1"
      "Clock is synchronized, stratum 2" ["15.1", "r1", "img", "a", "b", "c", "d"] []
      rfl (Or.inl rfl) rfl rfl rfl rfl rfl rfl rfl rfl rfl⟩

/-! ### Claim C5 -/

/-- C5 counterexample: when the show-version template yields zero parsed
    rows, the per-device processing does raise — `ParseText(sh_vers)[0]`
    fails with IndexError and the device run aborts, instead of defaulting
    the version fields. -/
theorem claim_C5_cex :
    envNoVersRows.parseVers "Cisco IOS Software, Version 15.1" = []
  ∧ (process_target envNoVersRows "TS" []).1 = .error .indexError :=
  ⟨rfl, rfl⟩

/-- C5 (amended): the extractor itself returns zero rows without raising,
    but `process_target` immediately indexes row 0 of the parse result, so a
    session whose show-version output parses to zero rows aborts with
    IndexError (after the backup and the CDP steps succeeded). -/
theorem claim_C5_zero_rows_abort (env : Env) (ts : String) (cfg : List String)
    (r c v : String)
    (hconn : env.connectResult = .ok ())
    (hmk : env.dirExists = true ∨ env.mkdirResult = .ok ())
    (hen : env.enableResult = .ok ())
    (hrun : env.sh_run = .ok r)
    (hwr : env.writeResult = .ok ())
    (hcdp : env.sh_cdp = .ok c)
    (hvers : env.sh_vers = .ok v)
    (hpv : env.parseVers v = []) :
    (process_target env ts cfg).1 = .error .indexError := by
  rcases hmk with hdir | hmk
  · simp [process_target, get_backup_file_path, create_backup, hconn, hdir, hen,
      hrun, hwr, hcdp, hvers, hpv]
  · by_cases hdir : env.dirExists <;>
      simp [process_target, get_backup_file_path, create_backup, hconn, hdir, hen,
        hmk, hrun, hwr, hcdp, hvers, hpv]

/-- C5 witness: the amended theorem applied to the concrete environment
    whose show-version parse is empty. -/
theorem claim_C5_witness :
    envNoVersRows.connectResult = .ok ()
  ∧ envNoVersRows.sh_vers = .ok "Cisco IOS Software, Version 15.1"
  ∧ envNoVersRows.parseVers "Cisco IOS Software, Version 15.1" = []
  ∧ (process_target envNoVersRows "TS" ["clock timezone GMT 0 0"]).1
      = .error .indexError :=
  ⟨rfl, rfl, rfl,
    claim_C5_zero_rows_abort envNoVersRows "TS" ["clock timezone GMT 0 0"]
      "hostname r1" "Device ID Local Intrfce Holdtme" "Cisco IOS Software, Version 15.1"
      rfl (Or.inl rfl) rfl rfl rfl rfl rfl rfl⟩

/-! ### Claim C6 -/

/-- C6: the claim says a failed directory creation or backup write is
    reported as an unsuccessful backup result without raising outside the
    device's processing.  The code contradicts its own comments: the handler
    `except Error:` names an undefined identifier, so a failing write makes
    `create_backup` raise NameError instead of returning False — in fact no
    input at all can make it return False — and a failing `os.mkdir`
    propagates out of `get_backup_file_path`, which has no handler. -/
theorem claim_C6_backup_error_escapes :
    (create_backup (.ok ()) (.ok "hostname r1") (.error .writeError)
        "backups/r1/r1-TS.txt").1 = .error .nameError
  ∧ (∀ (en : Except PyErr Unit) (run : Except PyErr String)
        (wr : Except PyErr Unit) (p : String),
        (create_backup en run wr p).1 ≠ .ok false)
  ∧ (get_backup_file_path false (.error .mkdirError) "r1" "TS").1
      = .error .mkdirError := by
  refine ⟨rfl, ?_, rfl⟩
  intro en run wr p
  cases en <;> cases run <;> cases wr <;> simp [create_backup]

/-! ### Claim C7 -/

/-- C7 counterexample: a malformed reply — here a zero-byte datagram, not a
    48-byte NTP packet — still makes the probe return true, because the code
    never inspects the reply; the claim says a malformed reply yields false. -/
theorem claim_C7_cex :
    check_ntp_server (.ok ()) (.ok []) = true ∧ specWellFormedReply [] = false :=
  ⟨rfl, rfl⟩

/-- C7 (amended): the probe sends the single fixed client-mode request
    datagram (first byte 0x1b, 48 bytes total) to UDP port 123, returns
    false whenever the send or the single receive raises (socket error or
    expiry of the 1-second timeout), with no retry, and returns true whenever
    any reply datagram arrives, without validating its content. -/
theorem claim_C7_probe_behavior :
    (∀ (e : PyErr) (r : Except PyErr (List Nat)),
        check_ntp_server (.error e) r = false)
  ∧ (∀ e : PyErr, check_ntp_server (.ok ()) (.error e) = false)
  ∧ (∀ reply : List Nat, check_ntp_server (.ok ()) (.ok reply) = true)
  ∧ ntp_port = 123
  ∧ ntp_request_msg.length = 48
  ∧ ntp_request_msg.head? = some 0x1b :=
  ⟨fun _ _ => rfl, fun _ => rfl, fun _ => rfl, rfl, by decide, rfl⟩

/-! ### Claim C8 -/

/-- C8: the ConfigBaseline is the timezone directive followed by one
    "ntp server" line per candidate whose probe returned true, in declared
    candidate order; it is computed once in `main` before the tasks are
    submitted, and every submitted task carries that same baseline and the
    single per-run timestamp.  Construction is a pure function of the probe
    outcomes, hence deterministic. -/
theorem claim_C8_baseline (probe : String → Bool) (devices : List Env)
    (now : DateTime6) (task : Env × String × List String)
    (htask : task ∈ main_tasks devices probe now) :
    build_config_commands probe
        = "clock timezone GMT 0 0" ::
            (NTP_SERVERS.filter probe).map (fun s => "ntp server " ++ s)
  ∧ task.2.2 = build_config_commands probe
  ∧ task.2.1 = get_current_date_and_time now := by
  refine ⟨build_config_commands_eq probe, ?_⟩
  simp only [main_tasks, List.mem_map] at htask
  obtain ⟨d, hd, rfl⟩ := htask
  exact ⟨rfl, rfl⟩

/-- C8 witness: the baseline theorem applied to an all-reachable probe and a
    one-device inventory. -/
theorem claim_C8_witness :
    (envOK, get_current_date_and_time ⟨2024, 1, 1, 0, 0, 0⟩,
        build_config_commands (fun _ => true))
      ∈ main_tasks [envOK] (fun _ => true) ⟨2024, 1, 1, 0, 0, 0⟩
  ∧ (build_config_commands (fun _ => true)
        = "clock timezone GMT 0 0" ::
            (NTP_SERVERS.filter (fun _ => true)).map (fun s => "ntp server " ++ s)
    ∧ (envOK, get_current_date_and_time ⟨2024, 1, 1, 0, 0, 0⟩,
          build_config_commands (fun _ => true)).2.2
        = build_config_commands (fun _ => true)
    ∧ (envOK, get_current_date_and_time ⟨2024, 1, 1, 0, 0, 0⟩,
          build_config_commands (fun _ => true)).2.1
        = get_current_date_and_time ⟨2024, 1, 1, 0, 0, 0⟩) :=
  ⟨by simp [main_tasks],
   claim_C8_baseline (fun _ => true) [envOK] ⟨2024, 1, 1, 0, 0, 0⟩ _
     (by simp [main_tasks])⟩

/-! ### Claim C9 -/

theorem backup_file_path_inj (hostname : String) {t₁ t₂ : String}
    (hne : t₁ ≠ t₂) :
    backup_file_path hostname t₁ ≠ backup_file_path hostname t₂ := by
  intro heq
  apply hne
  have h := congrArg String.data heq
  simp only [backup_file_path, String.data_append, List.append_assoc] at h
  repeat replace h := List.append_cancel_left h
  replace h := List.append_cancel_right h
  exact String.ext h

/-- C9: the backup artifact path is exactly
    backupRoot/hostname/hostname-timestamp.txt; the per-run timestamp follows
    the yyyy_mm_dd-hh_mm_ss pattern (checked on the spec example instant) and
    is computed once and shared by every submitted task; with the same
    hostname, two different timestamps give two distinct paths, and writing
    both leaves both files readable with their own text; a pre-existing
    per-hostname directory is not an error — `get_backup_file_path` skips the
    mkdir and returns the path. -/
theorem claim_C9_backup_layout (hostname t₁ t₂ : String)
    (mk : Except PyErr Unit) (hne : t₁ ≠ t₂) :
    backup_file_path hostname t₁
        = "backups" ++ "/" ++ hostname ++ "/" ++ hostname ++ "-" ++ t₁ ++ ".txt"
  ∧ get_current_date_and_time ⟨2024, 1, 1, 0, 0, 0⟩ = "2024_01_01-00_00_00"
  ∧ (∀ (devices : List Env) (probe : String → Bool) (now : DateTime6),
        ∀ task ∈ main_tasks devices probe now,
          task.2.1 = get_current_date_and_time now)
  ∧ backup_file_path hostname t₁ ≠ backup_file_path hostname t₂
  ∧ (∀ fs (text₁ text₂ : String),
        fs_read (fs_write (fs_write fs (backup_file_path hostname t₁) text₁)
            (backup_file_path hostname t₂) text₂)
          (backup_file_path hostname t₁) = some text₁
      ∧ fs_read (fs_write (fs_write fs (backup_file_path hostname t₁) text₁)
            (backup_file_path hostname t₂) text₂)
          (backup_file_path hostname t₂) = some text₂)
  ∧ get_backup_file_path true mk hostname t₁
      = (.ok (backup_file_path hostname t₁), []) := by
  refine ⟨rfl, rfl, ?_, backup_file_path_inj hostname hne, ?_, rfl⟩
  · intro devices probe now task htask
    simp only [main_tasks, List.mem_map] at htask
    obtain ⟨d, hd, rfl⟩ := htask
    rfl
  · intro fs text₁ text₂
    have hp : backup_file_path hostname t₂ ≠ backup_file_path hostname t₁ :=
      fun h => backup_file_path_inj hostname hne h.symm
    have hb : (backup_file_path hostname t₂ == backup_file_path hostname t₁)
        = false := beq_eq_false_iff_ne.mpr hp
    constructor
    · simp [fs_read, fs_write, List.find?, hb]
    · simp [fs_read, fs_write, List.find?]

/-- C9 witness: the layout theorem applied to hostname r1 and the two
    concrete timestamps from the spec scenario. -/
theorem claim_C9_witness :
    "2024_01_01-00_00_00" ≠ "2024_01_02-00_00_00"
  ∧ backup_file_path "r1" "2024_01_01-00_00_00"
      ≠ backup_file_path "r1" "2024_01_02-00_00_00"
  ∧ fs_read (fs_write (fs_write []
        (backup_file_path "r1" "2024_01_01-00_00_00") "hostname r1")
        (backup_file_path "r1" "2024_01_02-00_00_00") "hostname r1 v2")
      (backup_file_path "r1" "2024_01_01-00_00_00") = some "hostname r1" := by
  have h := claim_C9_backup_layout "r1" "2024_01_01-00_00_00" "2024_01_02-00_00_00"
    (.ok ()) (by decide)
  exact ⟨by decide, h.2.2.2.1, (h.2.2.2.2.1 [] "hostname r1" "hostname r1 v2").1⟩

/-! ### Claim C10 -/

theorem pe_or_npe_eq_npe_iff (v : String) :
    pe_or_npe v = "NPE" ↔ "NPE".data <:+: v.data := by
  rw [← strIn_iff]
  by_cases h : strIn "NPE" v <;> simp [pe_or_npe, h]

theorem pe_or_npe_eq_pe_iff (v : String) :
    pe_or_npe v = "PE" ↔ ¬ "NPE".data <:+: v.data := by
  rw [← strIn_iff]
  by_cases h : strIn "NPE" v <;> simp [pe_or_npe, h]

/-- C10: on a successful session, the audit record carries the hardware flag
    NPE exactly when the literal substring NPE occurs in the raw
    "show version" output and PE otherwise, and its hostname — the one also
    used for the backup path — is the detected prompt with its final
    character removed. -/
theorem claim_C10_hw_flag_and_hostname (env : Env) (ts : String)
    (cfg : List String) (r c v n : String) (row : List String)
    (rows : List (List String))
    (hconn : env.connectResult = .ok ())
    (hmk : env.dirExists = true ∨ env.mkdirResult = .ok ())
    (hen : env.enableResult = .ok ())
    (hrun : env.sh_run = .ok r)
    (hwr : env.writeResult = .ok ())
    (hcdp : env.sh_cdp = .ok c)
    (hvers : env.sh_vers = .ok v)
    (hpv : env.parseVers v = row :: rows)
    (hcfg : env.configResult = .ok ())
    (hntp : env.sh_ntp = .ok n)
    (hdis : env.disconnectResult = .ok ())
    (hp : env.prompt.data ≠ []) :
    ∃ a : Audit,
      (process_target env ts cfg).1 = .ok a
    ∧ a.hostname = device_hostname env.prompt
    ∧ a.hostname.data ++ [env.prompt.data.getLast hp] = env.prompt.data
    ∧ (a.pe_or_npe = "NPE" ↔ "NPE".data <:+: v.data)
    ∧ (a.pe_or_npe = "PE" ↔ ¬ "NPE".data <:+: v.data)
    ∧ Ev.fileWrite (backup_file_path (device_hostname env.prompt) ts)
        ∈ (process_target env ts cfg).2 := by
  have hall := process_target_all_ok env ts cfg r c v n row rows hconn hmk hen
    hrun hwr hcdp hvers hpv hcfg hntp hdis
  refine ⟨_, by rw [hall], rfl, ?_, ?_, ?_, ?_⟩
  · simpa [device_hostname] using List.dropLast_append_getLast hp
  · exact pe_or_npe_eq_npe_iff v
  · exact pe_or_npe_eq_pe_iff v
  · rw [hall]
    simp

/-- C10 witness: the theorem applied to the concrete successful environment
    with prompt r1# and a show-version output without NPE. -/
theorem claim_C10_witness :
    envOK.prompt.data ≠ []
  ∧ envOK.sh_vers = .ok "Cisco IOS Software, Version 15.1"
  ∧ ∃ a : Audit,
      (process_target envOK "TS" []).1 = .ok a
    ∧ a.hostname = device_hostname envOK.prompt
    ∧ a.hostname.data
          ++ [envOK.prompt.data.getLast (by decide)] = envOK.prompt.data
    ∧ (a.pe_or_npe = "NPE" ↔ "NPE".data <:+: "Cisco IOS Software, Version 15.1".data)
    ∧ (a.pe_or_npe = "PE" ↔ ¬ "NPE".data <:+: "Cisco IOS Software, Version 15.1".data)
    ∧ Ev.fileWrite (backup_file_path (device_hostname envOK.prompt) "TS")
        ∈ (process_target envOK "TS" []).2 :=
  ⟨by decide, rfl,
    claim_C10_hw_flag_and_hostname envOK "TS" []
      "hostname r1" "Device ID Local Intrfce Holdtme" "Cisco IOS Software, Version 15.1"
      "Clock is synchronized, stratum 2" ["15.1", "r1", "img", "a", "b", "c", "d"] []
      rfl (Or.inl rfl) rfl rfl rfl rfl rfl rfl rfl rfl rfl (by decide)⟩

end DeviceCheck
